import Mathlib

/-!
Verification development for the `ManipulatorRobot` controller of
`lerobot/common/robot_devices/robots/manipulator.py`.

The Python source is shallowly embedded here:
joint positions are rational vectors (`List ℚ`), stateful methods become
pure functions from a `Robot` value to an `Except Err` result paired with
a trace of device interactions (`Event`), and code that can raise
a Python exception returns `Except Err`.
-/

namespace Manipulator

/-- A relative-target bound: `max_relative_target` in the Python config is
either a scalar float or a per-joint list of floats. -/
inductive RelTarget where
  | scalar (b : ℚ)
  | perAxis (bs : List ℚ)
deriving DecidableEq, Repr

/-- The per-axis bound list obtained from broadcasting: a scalar bound is
replicated to the goal length (mirroring torch broadcasting), a per-axis
bound is used as given. -/
def RelTarget.boundList : RelTarget → Nat → List ℚ
  | .scalar b, n => List.replicate n b
  | .perAxis bs, _ => bs

/-- Well-formedness of the bound against an `n`-element goal: a per-axis
bound must have one entry per joint (torch broadcasting would otherwise
fail or change lengths). -/
def RelTarget.wf : RelTarget → Nat → Prop
  | .scalar _, _ => True
  | .perAxis bs, n => bs.length = n

/-- All bound entries strictly positive. -/
def RelTarget.allPos : RelTarget → Prop
  | .scalar b => 0 < b
  | .perAxis bs => ∀ b ∈ bs, 0 < b

/-- One axis of the safety clamp, from `ensure_safe_goal_position`:
`safe_diff = max (min (goal - present) bound) (-bound)` and the result is
`present + safe_diff`. -/
def clampElem (g p b : ℚ) : ℚ :=
  p + max (min (g - p) b) (-b)

/-- Element-wise clamp over three equal-length lists (goal, present,
per-axis bounds). -/
def clampList : List ℚ → List ℚ → List ℚ → List ℚ
  | g :: gs, p :: ps, b :: bs => clampElem g p b :: clampList gs ps bs
  | _, _, _ => []

/-- `ensure_safe_goal_position(goal_pos, present_pos, max_relative_target)`
from the source: the difference `goal - present` is truncated element-wise
to `[-bound, bound]` and re-added to `present`. -/
def ensure_safe_goal_position (goal present : List ℚ) (m : RelTarget) : List ℚ :=
  clampList goal present (m.boundList goal.length)

theorem clampElem_abs_le (g p b : ℚ) (hb : 0 < b) :
    |clampElem g p b - p| ≤ b := by
  unfold clampElem
  rw [abs_le]
  constructor
  · have : -b ≤ max (min (g - p) b) (-b) := le_max_right _ _
    linarith
  · have h1 : min (g - p) b ≤ b := min_le_right _ _
    have h2 : -b ≤ b := by linarith
    have : max (min (g - p) b) (-b) ≤ b := max_le h1 h2
    linarith

theorem clampElem_eq_of_safe (g p b : ℚ) (h : |g - p| ≤ b) :
    clampElem g p b = g := by
  unfold clampElem
  rw [abs_le] at h
  rw [min_eq_left h.2, max_eq_left h.1]
  ring

theorem clampList_length (gs ps bs : List ℚ)
    (h1 : ps.length = gs.length) (h2 : bs.length = gs.length) :
    (clampList gs ps bs).length = gs.length := by
  induction gs generalizing ps bs with
  | nil => cases ps <;> cases bs <;> simp [clampList]
  | cons g gs ih =>
    cases ps with
    | nil => simp at h1
    | cons p ps =>
      cases bs with
      | nil => simp at h2
      | cons b bs =>
        simp only [clampList, List.length_cons] at *
        exact congrArg Nat.succ (ih ps bs (by omega) (by omega))

theorem clampList_spec (gs ps bs : List ℚ)
    (h1 : ps.length = gs.length) (h2 : bs.length = gs.length)
    (hpos : ∀ b ∈ bs, 0 < b) :
    (∀ i, i < gs.length →
      |(clampList gs ps bs).getD i 0 - ps.getD i 0| ≤ bs.getD i 0) ∧
    ((∀ i, i < gs.length → |gs.getD i 0 - ps.getD i 0| ≤ bs.getD i 0) →
      clampList gs ps bs = gs) := by
  induction gs generalizing ps bs with
  | nil =>
    constructor
    · intro i hi; simp at hi
    · intro _; cases ps <;> cases bs <;> rfl
  | cons g gs ih =>
    cases ps with
    | nil => simp at h1
    | cons p ps =>
      cases bs with
      | nil => simp at h2
      | cons b bs =>
        simp only [List.length_cons] at h1 h2
        have hb : 0 < b := hpos b (List.mem_cons_self _ _)
        have hpos' : ∀ x ∈ bs, 0 < x := fun x hx => hpos x (List.mem_cons_of_mem _ hx)
        obtain ⟨ihBound, ihEq⟩ := ih ps bs (by omega) (by omega) hpos'
        constructor
        · intro i hi
          cases i with
          | zero =>
            simpa [clampList] using clampElem_abs_le g p b hb
          | succ j =>
            simp only [clampList, List.getD_cons_succ]
            exact ihBound j (by simpa using hi)
        · intro hsafe
          have h0 : |g - p| ≤ b := by simpa using hsafe 0 (Nat.succ_pos _)
          have hrest : ∀ i, i < gs.length → |gs.getD i 0 - ps.getD i 0| ≤ bs.getD i 0 := by
            intro i hi
            simpa using hsafe (i + 1) (by simpa using hi)
          simp only [clampList]
          rw [clampElem_eq_of_safe g p b h0, ihEq hrest]

theorem getD_replicate (b : ℚ) (n i : Nat) (hi : i < n) :
    (List.replicate n b).getD i 0 = b := by
  induction n generalizing i with
  | zero => omega
  | succ k ihn =>
    cases i with
    | zero => simp [List.replicate]
    | succ j => simpa [List.replicate] using ihn j (by omega)

theorem boundList_getD (m : RelTarget) (n i : Nat) (hi : i < n) :
    (m.boundList n).getD i 0 =
      (match m with
       | .scalar b => b
       | .perAxis bs => bs.getD i 0) := by
  cases m with
  | scalar b => exact getD_replicate b n i hi
  | perAxis bs => rfl

theorem boundList_length (m : RelTarget) (n : Nat) (hwf : m.wf n) :
    (m.boundList n).length = n := by
  cases m with
  | scalar b => simp [RelTarget.boundList]
  | perAxis bs => exact hwf

theorem boundList_pos (m : RelTarget) (n : Nat) (hpos : m.allPos) :
    ∀ b ∈ m.boundList n, 0 < b := by
  cases m with
  | scalar b =>
    intro x hx
    have := List.eq_of_mem_replicate hx
    subst this
    exact hpos
  | perAxis bs => exact hpos

/-- C1: for every goal vector, present vector of the same length and
positive bound (scalar or per-axis of matching length),
`ensure_safe_goal_position` returns a vector whose element-wise distance
from `present` is at most the bound, and returns `goal` itself whenever
every element of `goal - present` is already within the bound. -/
theorem ensure_safe_goal_position_spec (goal present : List ℚ) (m : RelTarget)
    (hlen : present.length = goal.length)
    (hwf : m.wf goal.length) (hpos : m.allPos) :
    (∀ i, i < goal.length →
      |(ensure_safe_goal_position goal present m).getD i 0 - present.getD i 0| ≤
        (m.boundList goal.length).getD i 0) ∧
    ((∀ i, i < goal.length →
        |goal.getD i 0 - present.getD i 0| ≤ (m.boundList goal.length).getD i 0) →
      ensure_safe_goal_position goal present m = goal) := by
  have hbl := boundList_length m goal.length hwf
  have hbp := boundList_pos m goal.length hpos
  exact clampList_spec goal present (m.boundList goal.length) hlen hbl hbp

/-- Witness for C1 at a concrete input: goal `[10, 2]`, present `[0, 0]`,
scalar bound `5`. -/
theorem ensure_safe_goal_position_spec_witness :
    (∀ i, i < ([(10 : ℚ), 2]).length →
      |(ensure_safe_goal_position [(10 : ℚ), 2] [0, 0] (.scalar 5)).getD i 0 -
        ([(0 : ℚ), 0]).getD i 0| ≤
        ((RelTarget.scalar (5 : ℚ)).boundList ([(10 : ℚ), 2]).length).getD i 0) ∧
    ((∀ i, i < ([(10 : ℚ), 2]).length →
        |([(10 : ℚ), 2]).getD i 0 - ([(0 : ℚ), 0]).getD i 0| ≤
          ((RelTarget.scalar (5 : ℚ)).boundList ([(10 : ℚ), 2]).length).getD i 0) →
      ensure_safe_goal_position [(10 : ℚ), 2] [0, 0] (.scalar 5) = [(10 : ℚ), 2]) :=
  ensure_safe_goal_position_spec [(10 : ℚ), 2] [0, 0] (.scalar 5)
    (by decide) (by trivial) (by norm_num [RelTarget.allPos])

/-- Dtypes appearing in the feature schema and observation values. -/
inductive Dtype where
  | string | int64 | float64 | uint8 | float32
deriving DecidableEq, Repr

/-- An abstract Python value attached to a payload field: either a numpy
ndarray with a dtype and a shape, or some non-ndarray value. The array
contents are abstracted away; only dtype and shape are tracked. -/
inductive PyVal where
  | nd (dtype : Dtype) (dims : List Nat)
  | other
deriving DecidableEq, Repr

/-- A truthy (non-empty, non-None) payload returned by a tactile sensor
read. A `none` field means the key is absent from the dict or maps to
Python None (both take the same branch in the source). -/
structure Payload where
  SN : Option String := none
  index : Option Int := none
  sendTimestamp : Option ℚ := none
  recvTimestamp : Option ℚ := none
  device_name : Option String := none
  frame_index : Option Int := none
  timestamp : Option ℚ := none
  tactile_image : Option PyVal := none
  image : Option PyVal := none
  positions3d : Option PyVal := none
  displacements3d : Option PyVal := none
  forces3d : Option PyVal := none
  resultant_force : Option PyVal := none
  resultant_moment : Option PyVal := none
deriving DecidableEq, Repr

/-- A value stored in the tactile observation dictionary: a Python string,
a one-element int64 tensor, a one-element float64 tensor, or a
multi-dimensional tensor of which we track dtype, shape and whether the
source constructed it as an all-zero placeholder. -/
inductive TactileVal where
  | str (s : String)
  | int1 (v : Int)
  | float1 (v : ℚ)
  | arr (dtype : Dtype) (shape : List Nat) (isZero : Bool)
deriving DecidableEq, Repr

/-- Dtype of an observation value (a Python `str` plays the role of the
schema dtype "string"). -/
def TactileVal.dtypeOf : TactileVal → Dtype
  | .str _ => .string
  | .int1 _ => .int64
  | .float1 _ => .float64
  | .arr d _ _ => d

/-- Shape of an observation value; scalar-carrying tensors are built as
`torch.tensor([v])`, shape `(1,)`, and a serial string is declared with
shape `(1,)` in the schema. -/
def TactileVal.shapeOf : TactileVal → List Nat
  | .str _ => [1]
  | .int1 _ => [1]
  | .float1 _ => [1]
  | .arr _ s _ => s

/-- Whether a value is the zero-filled or empty placeholder the source
constructs when data is missing. -/
def TactileVal.isPlaceholder : TactileVal → Bool
  | .str s => s == ""
  | .int1 v => v == 0
  | .float1 v => v == 0
  | .arr _ _ z => z

/-- One Python exception class, as distinguished by the claims. -/
inductive Err where
  | alreadyConnected | notConnected | valueError
  | keyError | typeError | attributeError | indexError | runtimeError
deriving DecidableEq, Repr

/-- Tactile sensor configuration: the `type` string and the gelsight image
dimensions (with the `getattr` defaults 240 and 320 from the source). -/
structure TactileSensorConfig where
  ty : String
  imgh : Nat := 240
  imgw : Nat := 320
deriving DecidableEq, Repr

/-- A tactile sensor: its registry name, its configuration, and the result
of `read()` during the modelled capture call (`none` means `read()`
raised, which the source records as a None payload). -/
structure Sensor where
  name : String
  config : TactileSensorConfig
  readResult : Option Payload := none
  disconnectFails : Bool := false
deriving DecidableEq, Repr

/-- Builds one dotted tactile feature key
`observation.tactile.{type}.{name}.{field}`. -/
def tacKey (ty nm field : String) : String :=
  "observation.tactile." ++ ty ++ "." ++ nm ++ "." ++ field

/-- One entry of the feature schema: dtype, shape and optional ordered
axis names. -/
structure FeatureDesc where
  dtype : Dtype
  shape : List Nat
  names : Option (List String)
deriving DecidableEq, Repr

/-- The `tactile_features` schema entries contributed by one sensor,
translated from the source property: four metadata keys for every sensor,
then variant-specific keys dispatched on the config type string. -/
def tactile_features_one (nm : String) (cfg : TactileSensorConfig) :
    List (String × FeatureDesc) :=
  let base : List (String × FeatureDesc) :=
    [(tacKey cfg.ty nm "sensor_sn", ⟨.string, [1], none⟩),
     (tacKey cfg.ty nm "frame_index", ⟨.int64, [1], none⟩),
     (tacKey cfg.ty nm "send_timestamp", ⟨.float64, [1], none⟩),
     (tacKey cfg.ty nm "recv_timestamp", ⟨.float64, [1], none⟩)]
  if cfg.ty = "tac3d" then
    base ++
      [(tacKey cfg.ty nm "positions_3d", ⟨.float64, [400, 3], some ["marker_id", "coordinate"]⟩),
       (tacKey cfg.ty nm "displacements_3d", ⟨.float64, [400, 3], some ["marker_id", "coordinate"]⟩),
       (tacKey cfg.ty nm "forces_3d", ⟨.float64, [400, 3], some ["marker_id", "coordinate"]⟩),
       (tacKey cfg.ty nm "resultant_force", ⟨.float64, [3], some ["x", "y", "z"]⟩),
       (tacKey cfg.ty nm "resultant_moment", ⟨.float64, [3], some ["x", "y", "z"]⟩)]
  else if cfg.ty = "gelsight" then
    base ++
      [(tacKey cfg.ty nm "tactile_image", ⟨.uint8, [cfg.imgh, cfg.imgw, 3], some ["height", "width", "channel"]⟩)]
  else if cfg.ty = "digit" then
    base ++
      [(tacKey cfg.ty nm "tactile_image", ⟨.uint8, [240, 320, 3], some ["height", "width", "channel"]⟩)]
  else
    base ++
      [(tacKey cfg.ty nm "resultant_force", ⟨.float64, [3], some ["x", "y", "z"]⟩),
       (tacKey cfg.ty nm "resultant_moment", ⟨.float64, [3], some ["x", "y", "z"]⟩)]

/-- The full `tactile_features` property: one block of entries per sensor,
in registry order, computed purely from names and configurations. -/
def tactile_features (sensors : List (String × TactileSensorConfig)) :
    List (String × FeatureDesc) :=
  (sensors.map (fun sc => tactile_features_one sc.1 sc.2)).flatten

/-- The flat per-sensor slice of the `tactile_data` dictionary built by
stage 2 of `_get_tactile_observation`; a `none` field means the key
`{name}_{field}` was never assigned. -/
structure FlatData where
  sensor_sn : Option TactileVal := none
  frame_index : Option TactileVal := none
  send_timestamp : Option TactileVal := none
  recv_timestamp : Option TactileVal := none
  tactile_image : Option TactileVal := none
  positions_3d : Option TactileVal := none
  displacements_3d : Option TactileVal := none
  forces_3d : Option TactileVal := none
  resultant_force : Option TactileVal := none
  resultant_moment : Option TactileVal := none
deriving DecidableEq, Repr

/-- Stage-2 handling of a tac3d 3-D array field (`3D_Positions` and
friends): absent or None degrades to a `(400, 3)` zero array; a present
non-ndarray raises AttributeError at the `.astype` call; an ndarray is
converted via `astype(float64)` and `from_numpy`, keeping its shape. -/
def tac3dArrayField (v : Option PyVal) : Except Err TactileVal :=
  match v with
  | none => .ok (.arr .float64 [400, 3] true)
  | some .other => .error .attributeError
  | some (.nd _ dims) => .ok (.arr .float64 dims false)

/-- Stage-2 handling of a tac3d resultant force/moment field: non-ndarray
or too-small arrays degrade to `(3,)` zeros; a 1-D array of size at least
3 or a 2-D array with at least one row and at least 3 columns yields a
data tensor; a 2-D array with fewer than 3 columns makes the element
access `force[0, 2]` raise IndexError; other ranks degrade to zeros. -/
def tac3dResultantField (v : Option PyVal) : Except Err TactileVal :=
  match v with
  | none => .ok (.arr .float64 [3] true)
  | some .other => .ok (.arr .float64 [3] true)
  | some (.nd _ dims) =>
    if 3 ≤ dims.prod then
      if dims.length = 1 then .ok (.arr .float64 [3] false)
      else if dims.length = 2 ∧ 1 ≤ dims.getD 0 0 then
        if 3 ≤ dims.getD 1 0 then .ok (.arr .float64 [3] false)
        else .error .indexError
      else .ok (.arr .float64 [3] true)
    else .ok (.arr .float64 [3] true)

/-- Stage-2 digit image normalization: a 3-D ndarray with 3 channels is
kept; a 1-D ndarray with exactly 240*320*3 elements is reshaped to
`(240, 320, 3)`; anything else (other ranks, non-ndarrays) is replaced by
a `(240, 320, 3)` uint8 zero image. -/
def digitFromImage : PyVal → TactileVal
  | .nd dt dims =>
    if dims.length = 3 ∧ dims.getD 2 0 = 3 then .arr dt dims false
    else if dims.length = 1 ∧ dims.getD 0 0 = 240 * 320 * 3 then .arr dt [240, 320, 3] false
    else .arr .uint8 [240, 320, 3] true
  | .other => .arr .uint8 [240, 320, 3] true

/-- Stage-2 digit image selection: the `tactile_image` field is preferred;
the `image` field is a compatibility fallback with a stricter check; with
neither present a zero image is created. -/
def digitImage (p : Payload) : TactileVal :=
  match p.tactile_image with
  | some img => digitFromImage img
  | none =>
    match p.image with
    | some (.nd dt dims) =>
      if dims.length = 3 ∧ dims.getD 2 0 = 3 then .arr dt dims false
      else .arr .uint8 [240, 320, 3] true
    | some .other => .arr .uint8 [240, 320, 3] true
    | none => .arr .uint8 [240, 320, 3] true

/-- Stage-2 gelsight image handling: `torch.from_numpy` is applied with no
type check, so a present non-ndarray raises TypeError; when neither the
`tactile_image` nor the `image` field is present, no image key is
assigned at all. -/
def gelsightImage (p : Payload) : Except Err (Option TactileVal) :=
  match p.tactile_image with
  | some (.nd dt dims) => .ok (some (.arr dt dims false))
  | some .other => .error .typeError
  | none =>
    match p.image with
    | some (.nd dt dims) => .ok (some (.arr dt dims false))
    | some .other => .error .typeError
    | none => .ok none

/-- Stage-2 processing of one truthy payload, dispatched on the config
type string exactly as the two if/elif chains of the source. `now` stands
for the wall-clock `time.time()` default used when a gelsight or digit
payload has no timestamp. -/
def processTruthy (cfg : TactileSensorConfig) (now : ℚ) (p : Payload) :
    Except Err FlatData :=
  if cfg.ty = "tac3d" then
    match tac3dArrayField p.positions3d, tac3dArrayField p.displacements3d,
          tac3dArrayField p.forces3d, tac3dResultantField p.resultant_force,
          tac3dResultantField p.resultant_moment with
    | .error e, _, _, _, _ => .error e
    | _, .error e, _, _, _ => .error e
    | _, _, .error e, _, _ => .error e
    | _, _, _, .error e, _ => .error e
    | _, _, _, _, .error e => .error e
    | .ok pos, .ok disp, .ok fr, .ok rf, .ok rm =>
      .ok { sensor_sn := some (.str (p.SN.getD "")),
            frame_index := some (.int1 (p.index.getD 0)),
            send_timestamp := some (.float1
              (match p.sendTimestamp with
               | some v => v
               | none => p.recvTimestamp.getD 0)),
            recv_timestamp := some (.float1 (p.recvTimestamp.getD 0)),
            positions_3d := some pos, displacements_3d := some disp,
            forces_3d := some fr, resultant_force := some rf,
            resultant_moment := some rm }
  else if cfg.ty = "gelsight" then
    match gelsightImage p with
    | .error e => .error e
    | .ok img =>
      let ts := p.timestamp.getD now
      .ok { sensor_sn := some (.str (p.device_name.getD "")),
            frame_index := some (.int1 (p.frame_index.getD 0)),
            send_timestamp := some (.float1 ts),
            recv_timestamp := some (.float1 ts),
            tactile_image := img }
  else if cfg.ty = "digit" then
    let ts := p.timestamp.getD now
    .ok { sensor_sn := some (.str (p.device_name.getD "")),
          frame_index := some (.int1 (p.frame_index.getD 0)),
          send_timestamp := some (.float1 ts),
          recv_timestamp := some (.float1 ts),
          tactile_image := some (digitImage p),
          resultant_force := some (.arr .float64 [3] true),
          resultant_moment := some (.arr .float64 [3] true) }
  else
    .ok { resultant_force := some (.arr .float64 [3] true),
          resultant_moment := some (.arr .float64 [3] true) }

/-- Stage-2 processing when the sensor read raised (the payload was
recorded as None): metadata degrades to empty string and zero tensors and
each variant fills its declared fields with zeros. -/
def processMissing (cfg : TactileSensorConfig) : FlatData :=
  let base : FlatData :=
    { sensor_sn := some (.str ""),
      frame_index := some (.int1 0),
      send_timestamp := some (.float1 0),
      recv_timestamp := some (.float1 0) }
  if cfg.ty = "tac3d" then
    { base with
      positions_3d := some (.arr .float64 [400, 3] true),
      displacements_3d := some (.arr .float64 [400, 3] true),
      forces_3d := some (.arr .float64 [400, 3] true),
      resultant_force := some (.arr .float64 [3] true),
      resultant_moment := some (.arr .float64 [3] true) }
  else if cfg.ty = "gelsight" then
    { base with tactile_image := some (.arr .uint8 [cfg.imgh, cfg.imgw, 3] true) }
  else if cfg.ty = "digit" then
    { base with tactile_image := some (.arr .uint8 [240, 320, 3] true) }
  else
    { base with
      resultant_force := some (.arr .float64 [3] true),
      resultant_moment := some (.arr .float64 [3] true) }

/-- Stage 3 of `_get_tactile_observation` for one sensor: the hierarchical
observation keys are populated from the flat dictionary. The four
metadata keys and the tac3d and gelsight payload keys are looked up
unconditionally (a missing key raises KeyError); the digit image and the
unknown-variant force and moment keys are guarded by membership tests. -/
def assembleSensor (nm : String) (cfg : TactileSensorConfig) (fd : FlatData) :
    Except Err (List (String × TactileVal)) :=
  match fd.sensor_sn, fd.frame_index, fd.send_timestamp, fd.recv_timestamp with
  | some sn, some fi, some st, some rt =>
    let base : List (String × TactileVal) :=
      [(tacKey cfg.ty nm "sensor_sn", sn),
       (tacKey cfg.ty nm "frame_index", fi),
       (tacKey cfg.ty nm "send_timestamp", st),
       (tacKey cfg.ty nm "recv_timestamp", rt)]
    if cfg.ty = "tac3d" then
      match fd.positions_3d, fd.displacements_3d, fd.forces_3d,
            fd.resultant_force, fd.resultant_moment with
      | some pos, some disp, some fr, some rf, some rm =>
        .ok (base ++
          [(tacKey cfg.ty nm "positions_3d", pos),
           (tacKey cfg.ty nm "displacements_3d", disp),
           (tacKey cfg.ty nm "forces_3d", fr),
           (tacKey cfg.ty nm "resultant_force", rf),
           (tacKey cfg.ty nm "resultant_moment", rm)])
      | _, _, _, _, _ => .error .keyError
    else if cfg.ty = "gelsight" then
      match fd.tactile_image with
      | some img => .ok (base ++ [(tacKey cfg.ty nm "tactile_image", img)])
      | none => .error .keyError
    else if cfg.ty = "digit" then
      .ok (base ++
        (match fd.tactile_image with
         | some img => [(tacKey cfg.ty nm "tactile_image", img)]
         | none => []))
    else
      .ok (base ++
        (match fd.resultant_force with
         | some rf => [(tacKey cfg.ty nm "resultant_force", rf)]
         | none => []) ++
        (match fd.resultant_moment with
         | some rm => [(tacKey cfg.ty nm "resultant_moment", rm)]
         | none => []))
  | _, _, _, _ => .error .keyError

/-- The full processing of one sensor inside `_get_tactile_observation`:
stage 2 on the recorded read result, then stage 3 assembly. -/
def sensorObservation (now : ℚ) (s : Sensor) :
    Except Err (List (String × TactileVal)) :=
  match s.readResult with
  | none => assembleSensor s.name s.config (processMissing s.config)
  | some p =>
    match processTruthy s.config now p with
    | .error e => .error e
    | .ok fd => assembleSensor s.name s.config fd

/-- `_get_tactile_observation` over the sensor registry: per-sensor
results are concatenated in registry order; a Python exception in any
sensor's stage-2 or stage-3 processing propagates. -/
def tactileObservation (now : ℚ) : List Sensor →
    Except Err (List (String × TactileVal))
  | [] => .ok []
  | s :: rest =>
    match sensorObservation now s with
    | .error e => .error e
    | .ok o =>
      match tactileObservation now rest with
      | .error e => .error e
      | .ok os => .ok (o ++ os)

/-- A motors bus (one leader or follower arm): registry name, ordered
motor names, the vector `read("Present_Position")` returns during the
modelled call, and whether its `disconnect()` raises. -/
structure MotorsBus where
  name : String
  motor_names : List String
  present_position : List ℚ
  disconnectFails : Bool := false
deriving DecidableEq, Repr

/-- A camera: registry name, the shape of the frame `async_read` returns,
and whether its `disconnect()` raises. -/
structure Camera where
  name : String
  frameDims : List Nat := [480, 640, 3]
  disconnectFails : Bool := false
deriving DecidableEq, Repr

/-- The `ManipulatorRobot` state: device registries in construction
order, the optional relative-target bound, and the connection flag. -/
structure Robot where
  leader_arms : List MotorsBus := []
  follower_arms : List MotorsBus := []
  cameras : List Camera := []
  tactile_sensors : List Sensor := []
  max_relative_target : Option RelTarget := none
  is_connected : Bool := false
deriving DecidableEq, Repr

/-- One device interaction performed during a modelled call. A
`disconnectAttempt` records that the device's `disconnect()` was called
and whether it succeeded; `forcedCleanup` records the best-effort forced
cleanup the source runs for a tactile sensor whose disconnect raised. -/
inductive Event where
  | readLeaderPos (nm : String)
  | readFollowerPos (nm : String)
  | writeGoalPos (nm : String) (v : List ℚ)
  | readCamera (nm : String)
  | readTactile (nm : String)
  | disconnectAttempt (nm : String) (ok : Bool)
  | forcedCleanup (nm : String)
deriving DecidableEq, Repr

/-- One entry of an assembled observation dictionary. -/
inductive ObsVal where
  | state (v : List ℚ)
  | image (dims : List Nat)
  | tact (t : TactileVal)
deriving DecidableEq, Repr

/-- `connect()`: raises if already connected; raises ValueError when no
leader arm, no follower arm and no camera is configured (the source does
not consult the tactile registry in this check); otherwise connects every
device, runs calibration and presets (external collaborators, outside
this model) and sets the connected flag. -/
def connect (r : Robot) : Except Err Robot :=
  if r.is_connected then .error .alreadyConnected
  else if r.leader_arms.isEmpty ∧ r.follower_arms.isEmpty ∧ r.cameras.isEmpty then
    .error .valueError
  else .ok { r with is_connected := true }

/-- The try/except around one arm or camera disconnect: the call is
always attempted and an exception is caught and logged. -/
def tryDisconnectDevice (nm : String) (fails : Bool) : List Event :=
  if fails then [.disconnectAttempt nm false] else [.disconnectAttempt nm true]

/-- The try/except around one tactile sensor disconnect: on failure the
source additionally runs a best-effort forced cleanup (process kill and
handle reset), itself wrapped so nothing propagates. -/
def tryDisconnectSensor (nm : String) (fails : Bool) : List Event :=
  if fails then [.disconnectAttempt nm false, .forcedCleanup nm]
  else [.disconnectAttempt nm true]

/-- `disconnect()`: raises when not connected; otherwise every follower
arm, leader arm, camera and tactile sensor receives a disconnect call in
registry order, each wrapped in try/except so one failure never prevents
the next call, and the connected flag is cleared unconditionally. -/
def disconnect (r : Robot) : Except Err (Robot × List Event) :=
  if r.is_connected then
    .ok ({ r with is_connected := false },
      (r.follower_arms.map (fun a => tryDisconnectDevice a.name a.disconnectFails)).flatten ++
      (r.leader_arms.map (fun a => tryDisconnectDevice a.name a.disconnectFails)).flatten ++
      (r.cameras.map (fun c => tryDisconnectDevice c.name c.disconnectFails)).flatten ++
      (r.tactile_sensors.map (fun s => tryDisconnectSensor s.name s.disconnectFails)).flatten)
  else .error .notConnected

/-- The leader positions dictionary built at the start of `teleop_step`. -/
def leaderPosList (r : Robot) : List (String × List ℚ) :=
  r.leader_arms.map (fun a => (a.name, a.present_position))

/-- The goal written in `teleop_step` for one follower: the same-named
leader pose, clamped against the follower's present position when a
relative-target bound is configured. -/
def teleopGoal (L : List (String × List ℚ)) (m : Option RelTarget)
    (f : MotorsBus) : List ℚ :=
  match m with
  | none => (List.lookup f.name L).getD []
  | some mt => ensure_safe_goal_position ((List.lookup f.name L).getD [])
      f.present_position mt

/-- The write loop of `teleop_step`: for each follower the leader pose is
looked up (KeyError when the follower name has no leader entry), clamped
when a bound is configured (which costs one present-position read), and
written to `Goal_Position`. Returns the `follower_goal_pos` association
and the event trace. -/
def teleopWriteLoop (L : List (String × List ℚ)) (m : Option RelTarget) :
    List MotorsBus → Except Err (List (String × List ℚ) × List Event)
  | [] => .ok ([], [])
  | f :: rest =>
    if (List.lookup f.name L).isSome then
      match teleopWriteLoop L m rest with
      | .error e => .error e
      | .ok (gs, evs2) =>
        .ok ((f.name, teleopGoal L m f) :: gs,
          (match m with
           | none => []
           | some _ => [Event.readFollowerPos f.name]) ++
          [Event.writeGoalPos f.name (teleopGoal L m f)] ++ evs2)
    else .error .keyError

/-- The camera capture loop shared by `teleop_step` and
`capture_observation`. -/
def cameraEntries (cams : List Camera) : List (String × ObsVal) :=
  cams.map (fun c => ("observation.images." ++ c.name, .image c.frameDims))

/-- `teleop_step(record_data)`: raises when not connected; reads every
leader pose, runs the write loop, and without recording returns None.
With recording it additionally reads follower positions (raising at the
empty `torch.cat` when there is no follower arm), captures camera frames
and the tactile observation, and returns the observation dictionary and
the action dictionary holding the concatenated post-clamp goals. -/
def teleop_step (now : ℚ) (r : Robot) (record_data : Bool) :
    Except Err (Option (List (String × ObsVal) × List ℚ) × List Event) :=
  if r.is_connected then
    let L := leaderPosList r
    let leaderEvs : List Event := r.leader_arms.map (fun a => .readLeaderPos a.name)
    match teleopWriteLoop L r.max_relative_target r.follower_arms with
    | .error e => .error e
    | .ok (goals, wEvs) =>
      if record_data then
        if r.follower_arms.isEmpty then .error .runtimeError
        else
          let fEvs : List Event := r.follower_arms.map (fun f => .readFollowerPos f.name)
          let st := (r.follower_arms.map (fun f => f.present_position)).flatten
          let act := (goals.map Prod.snd).flatten
          let camEvs : List Event := r.cameras.map (fun c => .readCamera c.name)
          let tacEvs : List Event := r.tactile_sensors.map (fun s => .readTactile s.name)
          match tactileObservation now r.tactile_sensors with
          | .error e => .error e
          | .ok tac =>
            let obs := ("observation.state", ObsVal.state st) ::
              cameraEntries r.cameras ++ tac.map (fun kv => (kv.1, ObsVal.tact kv.2))
            .ok (some (obs, act), leaderEvs ++ wEvs ++ fEvs ++ camEvs ++ tacEvs)
      else .ok (none, leaderEvs ++ wEvs)
  else .error .notConnected

/-- `capture_observation()`: raises when not connected; reads follower
positions (raising at the empty `torch.cat` with no follower arm),
captures camera frames and the tactile observation, and assembles the
observation dictionary. -/
def capture_observation (now : ℚ) (r : Robot) :
    Except Err (List (String × ObsVal) × List Event) :=
  if r.is_connected then
    if r.follower_arms.isEmpty then .error .runtimeError
    else
      let fEvs : List Event := r.follower_arms.map (fun f => .readFollowerPos f.name)
      let st := (r.follower_arms.map (fun f => f.present_position)).flatten
      let camEvs : List Event := r.cameras.map (fun c => .readCamera c.name)
      let tacEvs : List Event := r.tactile_sensors.map (fun s => .readTactile s.name)
      match tactileObservation now r.tactile_sensors with
      | .error e => .error e
      | .ok tac =>
        let obs := ("observation.state", ObsVal.state st) ::
          cameraEntries r.cameras ++ tac.map (fun kv => (kv.1, ObsVal.tact kv.2))
        .ok (obs, fEvs ++ camEvs ++ tacEvs)
  else .error .notConnected

/-- Splitting a flat action vector by per-arm motor counts, in registry
order, as the `from_idx`/`to_idx` slicing of `send_action` does. -/
def splitByCounts : List Nat → List ℚ → List (List ℚ)
  | [], _ => []
  | n :: rest, a => a.take n :: splitByCounts rest (a.drop n)

/-- The per-follower loop of `send_action`: slice the segment, clamp it
against the follower's present position when a bound is configured, write
it, and collect the post-clamp segment. -/
def sendLoop (m : Option RelTarget) : List MotorsBus → List ℚ →
    List ℚ × List Event
  | [], _ => ([], [])
  | f :: rest, a =>
    let n := f.motor_names.length
    let seg := a.take n
    let goal :=
      match m with
      | none => seg
      | some mt => ensure_safe_goal_position seg f.present_position mt
    let evs1 : List Event :=
      match m with
      | none => []
      | some _ => [.readFollowerPos f.name]
    let res := sendLoop m rest (a.drop n)
    (goal ++ res.1, evs1 ++ [.writeGoalPos f.name goal] ++ res.2)

/-- `send_action(action)`: raises when not connected; with no follower
arm the final empty `torch.cat` raises; otherwise runs the per-follower
loop and returns the concatenation of the segments actually sent. -/
def send_action (r : Robot) (a : List ℚ) : Except Err (List ℚ × List Event) :=
  if r.is_connected then
    if r.follower_arms.isEmpty then .error .runtimeError
    else .ok (sendLoop r.max_relative_target r.follower_arms a)
  else .error .notConnected

/-- The goal-position values carried by the write events of a trace, in
order. -/
def writtenGoals (evs : List Event) : List (List ℚ) :=
  evs.filterMap (fun e =>
    match e with
    | .writeGoalPos _ v => some v
    | _ => none)

/-- The motor features of the schema builder: both `action` and
`observation.state` are described by the ordered motor names of the
leader arms. -/
def get_motor_names (arms : List MotorsBus) : List String :=
  (arms.map (fun a => a.motor_names)).flatten

/-- The `motor_features` property, translated from the source: both
descriptors are float32 vectors named and sized by the leader arms. -/
def motor_features (r : Robot) : List (String × FeatureDesc) :=
  let action_names := get_motor_names r.leader_arms
  let state_names := get_motor_names r.leader_arms
  [("action", ⟨.float32, [action_names.length], some action_names⟩),
   ("observation.state", ⟨.float32, [state_names.length], some state_names⟩)]

/-- C8: for a configuration with exactly one tactile sensor of type
`digit` named `fingertip`, the feature schema holds exactly five keys:
the four metadata keys (serial string, int64 frame index, float64 send
and receive timestamps, each of shape `(1,)`) plus the
`(240, 320, 3)` uint8 `tactile_image` key, and no resultant-force or
resultant-moment keys; `tactile_features` is a pure function of the
configuration, so no hardware access is involved. -/
theorem tactile_features_digit_fingertip :
    tactile_features [("fingertip", { ty := "digit" })] =
      [("observation.tactile.digit.fingertip.sensor_sn",
          ⟨.string, [1], none⟩),
       ("observation.tactile.digit.fingertip.frame_index",
          ⟨.int64, [1], none⟩),
       ("observation.tactile.digit.fingertip.send_timestamp",
          ⟨.float64, [1], none⟩),
       ("observation.tactile.digit.fingertip.recv_timestamp",
          ⟨.float64, [1], none⟩),
       ("observation.tactile.digit.fingertip.tactile_image",
          ⟨.uint8, [240, 320, 3], some ["height", "width", "channel"]⟩)] := by
  decide

/-- A robot configured with one tactile sensor and nothing else, used to
exercise the missing-device check in `connect`. -/
def tactileOnlyRobot : Robot :=
  { tactile_sensors := [{ name := "fingertip", config := { ty := "digit" } }] }

/-- Counterexample to C9: a configuration with one tactile sensor (and no
arms or cameras) has a device of one of the four kinds configured, yet
`connect()` still raises the missing-device ValueError, because the
source's check only consults the leader, follower and camera
registries. -/
theorem connect_missing_device_counterexample :
    connect tactileOnlyRobot = .error .valueError := by
  rfl

/-- C9 amended: on a not-yet-connected robot, `connect()` raises the
missing-device configuration error if and only if no leader arm, no
follower arm and no camera is configured; the tactile registry is not
consulted by this check. -/
theorem connect_missing_device_iff (r : Robot) (h : r.is_connected = false) :
    connect r = .error .valueError ↔
      (r.leader_arms = [] ∧ r.follower_arms = [] ∧ r.cameras = []) := by
  unfold connect
  rw [h]
  rw [if_neg (by simp : ¬(false = true))]
  by_cases he : (r.leader_arms.isEmpty = true ∧ r.follower_arms.isEmpty = true ∧
      r.cameras.isEmpty = true)
  · rw [if_pos he]
    constructor
    · intro _
      exact ⟨List.isEmpty_iff.mp he.1, List.isEmpty_iff.mp he.2.1,
        List.isEmpty_iff.mp he.2.2⟩
    · intro _
      rfl
  · rw [if_neg he]
    constructor
    · intro hc
      cases hc
    · intro hemp
      exact absurd ⟨List.isEmpty_iff.mpr hemp.1, List.isEmpty_iff.mpr hemp.2.1,
        List.isEmpty_iff.mpr hemp.2.2⟩ he

/-- Witness for the amended C9 at the concrete tactile-only robot. -/
theorem connect_missing_device_iff_witness :
    connect tactileOnlyRobot = .error .valueError ↔
      (tactileOnlyRobot.leader_arms = [] ∧ tactileOnlyRobot.follower_arms = [] ∧
        tactileOnlyRobot.cameras = []) :=
  connect_missing_device_iff tactileOnlyRobot rfl

/-- C6: `connect()` on a connected controller raises the
already-connected error; `teleop_step`, `capture_observation`,
`send_action` and `disconnect` on a disconnected controller raise the
not-connected error; and after a successful `disconnect()` a second
`disconnect()` raises the not-connected error, so the controller is
disconnected at most once per connect. -/
theorem lifecycle_guards (r : Robot) (now : ℚ) (b : Bool) (a : List ℚ) :
    (r.is_connected = true → connect r = .error .alreadyConnected) ∧
    (r.is_connected = false →
      teleop_step now r b = .error .notConnected ∧
      capture_observation now r = .error .notConnected ∧
      send_action r a = .error .notConnected ∧
      disconnect r = .error .notConnected) ∧
    (∀ r2 evs, disconnect r = .ok (r2, evs) →
      disconnect r2 = .error .notConnected) := by
  refine ⟨?_, ?_, ?_⟩
  · intro h
    unfold connect
    rw [if_pos h]
  · intro h
    have h' : ¬(r.is_connected = true) := by
      rw [h]
      simp
    refine ⟨?_, ?_, ?_, ?_⟩
    · unfold teleop_step
      rw [if_neg h']
    · unfold capture_observation
      rw [if_neg h']
    · unfold send_action
      rw [if_neg h']
    · unfold disconnect
      rw [if_neg h']
  · intro r2 evs hok
    unfold disconnect at hok
    by_cases h : r.is_connected = true
    · rw [if_pos h] at hok
      cases hok
      rfl
    · rw [if_neg h] at hok
      cases hok

/-- A small connected robot used as a witness for the lifecycle claims:
one leader, one follower, one camera, one tactile sensor, all connected,
with the follower arm's disconnect raising. -/
def sampleConnectedRobot : Robot :=
  { leader_arms := [{ name := "main", motor_names := ["shoulder", "gripper"],
                      present_position := [10, 20] }],
    follower_arms := [{ name := "main", motor_names := ["shoulder", "gripper"],
                        present_position := [1, 2], disconnectFails := true }],
    cameras := [{ name := "laptop" }],
    tactile_sensors := [{ name := "fingertip", config := { ty := "digit" } }],
    is_connected := true }

/-- Witness for C6 at concrete inputs: the guards fire on a concrete
connected robot and on a concrete disconnected robot. -/
theorem lifecycle_guards_witness :
    connect sampleConnectedRobot = .error .alreadyConnected ∧
    teleop_step 0 tactileOnlyRobot true = .error .notConnected ∧
    capture_observation 0 tactileOnlyRobot = .error .notConnected ∧
    send_action tactileOnlyRobot [1, 2] = .error .notConnected ∧
    disconnect tactileOnlyRobot = .error .notConnected ∧
    (∀ r2 evs, disconnect sampleConnectedRobot = .ok (r2, evs) →
      disconnect r2 = .error .notConnected) :=
  ⟨(lifecycle_guards sampleConnectedRobot 0 true [1, 2]).1 rfl,
   ((lifecycle_guards tactileOnlyRobot 0 true [1, 2]).2.1 rfl).1,
   ((lifecycle_guards tactileOnlyRobot 0 true [1, 2]).2.1 rfl).2.1,
   ((lifecycle_guards tactileOnlyRobot 0 true [1, 2]).2.1 rfl).2.2.1,
   ((lifecycle_guards tactileOnlyRobot 0 true [1, 2]).2.1 rfl).2.2.2,
   (lifecycle_guards sampleConnectedRobot 0 true [1, 2]).2.2⟩

/-- The registry name recorded by a disconnect-attempt event. -/
def attemptedName : Event → Option String
  | .disconnectAttempt nm _ => some nm
  | _ => none

theorem filterMap_tryDevice (ps : List (String × Bool)) :
    ((ps.map (fun p => tryDisconnectDevice p.1 p.2)).flatten).filterMap attemptedName =
      ps.map Prod.fst := by
  induction ps with
  | nil => rfl
  | cons p rest ih =>
    simp only [List.map_cons, List.flatten_cons, List.filterMap_append, ih]
    cases hb : p.2 <;>
      simp [tryDisconnectDevice, attemptedName, hb]

theorem filterMap_trySensor (ps : List (String × Bool)) :
    ((ps.map (fun p => tryDisconnectSensor p.1 p.2)).flatten).filterMap attemptedName =
      ps.map Prod.fst := by
  induction ps with
  | nil => rfl
  | cons p rest ih =>
    simp only [List.map_cons, List.flatten_cons, List.filterMap_append, ih]
    cases hb : p.2 <;>
      simp [tryDisconnectSensor, attemptedName, hb]

/-- C7: on a connected controller, `disconnect()` attempts a disconnect
call on every registered device — follower arms, leader arms, cameras,
tactile sensors, in registry order — no matter which per-device
disconnects raise, and the controller always ends disconnected. -/
theorem disconnect_attempts_all_devices (r : Robot) (h : r.is_connected = true) :
    ∃ r2 evs, disconnect r = .ok (r2, evs) ∧ r2.is_connected = false ∧
      evs.filterMap attemptedName =
        r.follower_arms.map (fun a => a.name) ++
        r.leader_arms.map (fun a => a.name) ++
        r.cameras.map (fun c => c.name) ++
        r.tactile_sensors.map (fun s => s.name) := by
  unfold disconnect
  rw [if_pos h]
  refine ⟨_, _, rfl, rfl, ?_⟩
  rw [List.filterMap_append, List.filterMap_append, List.filterMap_append]
  have harm : ∀ xs : List MotorsBus,
      ((xs.map (fun a => tryDisconnectDevice a.name a.disconnectFails)).flatten).filterMap
          attemptedName = xs.map (fun a => a.name) := by
    intro xs
    have := filterMap_tryDevice (xs.map (fun a => (a.name, a.disconnectFails)))
    simpa [List.map_map, Function.comp] using this
  have hcam :
      ((r.cameras.map (fun c => tryDisconnectDevice c.name c.disconnectFails)).flatten).filterMap
          attemptedName = r.cameras.map (fun c => c.name) := by
    have := filterMap_tryDevice (r.cameras.map (fun c => (c.name, c.disconnectFails)))
    simpa [List.map_map, Function.comp] using this
  have htac :
      ((r.tactile_sensors.map (fun s => tryDisconnectSensor s.name s.disconnectFails)).flatten).filterMap
          attemptedName = r.tactile_sensors.map (fun s => s.name) := by
    have := filterMap_trySensor (r.tactile_sensors.map (fun s => (s.name, s.disconnectFails)))
    simpa [List.map_map, Function.comp] using this
  rw [harm r.follower_arms, harm r.leader_arms, hcam, htac]

/-- Witness for C7 at `sampleConnectedRobot`, whose follower arm's
disconnect raises while the other three devices disconnect cleanly. -/
theorem disconnect_attempts_all_devices_witness :
    ∃ r2 evs, disconnect sampleConnectedRobot = .ok (r2, evs) ∧
      r2.is_connected = false ∧
      evs.filterMap attemptedName =
        sampleConnectedRobot.follower_arms.map (fun a => a.name) ++
        sampleConnectedRobot.leader_arms.map (fun a => a.name) ++
        sampleConnectedRobot.cameras.map (fun c => c.name) ++
        sampleConnectedRobot.tactile_sensors.map (fun s => s.name) :=
  disconnect_attempts_all_devices sampleConnectedRobot rfl

/-- The events one follower contributes to the teleop write loop: an
optional present-position read (only with a bound configured) followed by
exactly one `Goal_Position` write of the post-clamp goal. -/
def teleopEventsOf (L : List (String × List ℚ)) (m : Option RelTarget)
    (f : MotorsBus) : List Event :=
  (match m with
   | none => []
   | some _ => [Event.readFollowerPos f.name]) ++
  [Event.writeGoalPos f.name (teleopGoal L m f)]


theorem teleopWriteLoop_ok (L : List (String × List ℚ)) (m : Option RelTarget)
    (fs : List MotorsBus) (h : ∀ f ∈ fs, (List.lookup f.name L).isSome) :
    teleopWriteLoop L m fs =
      .ok (fs.map (fun f => (f.name, teleopGoal L m f)),
        (fs.map (teleopEventsOf L m)).flatten) := by
  induction fs with
  | nil => rfl
  | cons f rest ih =>
    have hf := h f (List.mem_cons_self _ _)
    have ihr := ih (fun g hg => h g (List.mem_cons_of_mem _ hg))
    simp only [teleopWriteLoop, if_pos hf, ihr, List.map_cons, List.flatten_cons]
    rfl

/-- The name and value carried by a goal-position write event. -/
def writeEventOf : Event → Option (String × List ℚ)
  | .writeGoalPos nm v => some (nm, v)
  | _ => none

/-- Whether an event is a camera read. -/
def Event.isCameraRead : Event → Bool
  | .readCamera _ => true
  | _ => false

/-- Whether an event is a tactile-sensor read. -/
def Event.isTactileRead : Event → Bool
  | .readTactile _ => true
  | _ => false

theorem writtenGoals_eq (evs : List Event) :
    writtenGoals evs = (evs.filterMap writeEventOf).map Prod.snd := by
  induction evs with
  | nil => rfl
  | cons e rest ih =>
    cases e <;> simp [writtenGoals, writeEventOf, List.filterMap_cons] <;>
      simpa [writtenGoals] using ih

theorem filterMap_write_teleopEvents (L : List (String × List ℚ))
    (m : Option RelTarget) (fs : List MotorsBus) :
    ((fs.map (teleopEventsOf L m)).flatten).filterMap writeEventOf =
      fs.map (fun f => (f.name, teleopGoal L m f)) := by
  induction fs with
  | nil => rfl
  | cons f rest ih =>
    simp only [List.map_cons, List.flatten_cons, List.filterMap_append, ih]
    cases m <;> simp [teleopEventsOf, writeEventOf]

theorem filterMap_write_of_reads (evs : List Event)
    (h : ∀ e ∈ evs, writeEventOf e = none) :
    evs.filterMap writeEventOf = [] := by
  induction evs with
  | nil => rfl
  | cons e rest ih =>
    rw [List.filterMap_cons, h e (List.mem_cons_self _ _)]
    exact ih (fun x hx => h x (List.mem_cons_of_mem _ hx))

theorem teleopEventsOf_no_capture (L : List (String × List ℚ))
    (m : Option RelTarget) (f : MotorsBus) :
    ∀ e ∈ teleopEventsOf L m f,
      e.isCameraRead = false ∧ e.isTactileRead = false := by
  cases m <;>
    simp [teleopEventsOf, Event.isCameraRead, Event.isTactileRead]

theorem teleop_step_false_eq (now : ℚ) (r : Robot)
    (hc : r.is_connected = true) (goals : List (String × List ℚ))
    (wEvs : List Event)
    (hw : teleopWriteLoop (leaderPosList r) r.max_relative_target
      r.follower_arms = .ok (goals, wEvs)) :
    teleop_step now r false =
      .ok (none, (r.leader_arms.map (fun a => Event.readLeaderPos a.name)) ++ wEvs) := by
  unfold teleop_step
  rw [if_pos hc]
  simp only [hw]
  rfl

theorem teleop_step_true_eq (now : ℚ) (r : Robot)
    (hc : r.is_connected = true) (goals : List (String × List ℚ))
    (wEvs : List Event) (tac : List (String × TactileVal))
    (hw : teleopWriteLoop (leaderPosList r) r.max_relative_target
      r.follower_arms = .ok (goals, wEvs))
    (hne : r.follower_arms.isEmpty = false)
    (htac : tactileObservation now r.tactile_sensors = .ok tac) :
    teleop_step now r true =
      .ok (some (("observation.state",
            ObsVal.state (r.follower_arms.map (fun f => f.present_position)).flatten) ::
            cameraEntries r.cameras ++ tac.map (fun kv => (kv.1, ObsVal.tact kv.2)),
          (goals.map Prod.snd).flatten),
        (r.leader_arms.map (fun a => Event.readLeaderPos a.name)) ++ wEvs ++
        (r.follower_arms.map (fun f => Event.readFollowerPos f.name)) ++
        (r.cameras.map (fun c => Event.readCamera c.name)) ++
        (r.tactile_sensors.map (fun s => Event.readTactile s.name))) := by
  unfold teleop_step
  rw [if_pos hc]
  simp only [hw, hne, htac]
  rfl

/-- C5: on a connected controller whose follower names all have a leader
entry, `teleop_step(record_data=False)` returns None, performs exactly
one `Goal_Position` write per follower arm (in registry order, carrying
the post-clamp goal), and performs no camera reads and no tactile-sensor
reads. -/
theorem teleop_step_no_record (now : ℚ) (r : Robot)
    (hc : r.is_connected = true)
    (hlk : ∀ f ∈ r.follower_arms, (List.lookup f.name (leaderPosList r)).isSome) :
    ∃ evs, teleop_step now r false = .ok (none, evs) ∧
      evs.filterMap writeEventOf =
        r.follower_arms.map
          (fun f => (f.name, teleopGoal (leaderPosList r) r.max_relative_target f)) ∧
      (∀ e ∈ evs, e.isCameraRead = false ∧ e.isTactileRead = false) := by
  have hw := teleopWriteLoop_ok (leaderPosList r) r.max_relative_target
    r.follower_arms hlk
  refine ⟨_, teleop_step_false_eq now r hc _ _ hw, ?_, ?_⟩
  · rw [List.filterMap_append, filterMap_write_teleopEvents]
    have hl : (r.leader_arms.map (fun a => Event.readLeaderPos a.name)).filterMap
        writeEventOf = [] := by
      apply filterMap_write_of_reads
      intro e he
      obtain ⟨x, hx, rfl⟩ := List.mem_map.mp he
      rfl
    rw [hl, List.nil_append]
  · intro e he
    rcases List.mem_append.mp he with h1 | h2
    · obtain ⟨x, hx, rfl⟩ := List.mem_map.mp h1
      exact ⟨rfl, rfl⟩
    · obtain ⟨l, hl, hel⟩ := List.mem_flatten.mp h2
      obtain ⟨f, hf, rfl⟩ := List.mem_map.mp hl
      exact teleopEventsOf_no_capture _ _ f e hel

/-- A robot used as witness for the teleoperation claims: one leader and
one matching follower with a scalar bound configured, no cameras, no
tactile sensors, connected. -/
def teleopWitnessRobot : Robot :=
  { leader_arms := [{ name := "main", motor_names := ["shoulder", "gripper"],
                      present_position := [30, 4] }],
    follower_arms := [{ name := "main", motor_names := ["shoulder", "gripper"],
                        present_position := [0, 0] }],
    max_relative_target := some (.scalar 10),
    is_connected := true }

/-- Witness for C5 at `teleopWitnessRobot`. -/
theorem teleop_step_no_record_witness :
    ∃ evs, teleop_step 0 teleopWitnessRobot false = .ok (none, evs) ∧
      evs.filterMap writeEventOf =
        teleopWitnessRobot.follower_arms.map
          (fun f => (f.name,
            teleopGoal (leaderPosList teleopWitnessRobot)
              teleopWitnessRobot.max_relative_target f)) ∧
      (∀ e ∈ evs, e.isCameraRead = false ∧ e.isTactileRead = false) :=
  teleop_step_no_record 0 teleopWitnessRobot rfl (by decide)

/-- C4: on a connected controller, `teleop_step(record_data=True)`
returns a pair whose action is the concatenation, over follower arms in
registry order, of exactly the goal values carried by the call's
`Goal_Position` write events — the leader pose after the safety clamp
whenever a relative-target bound is configured — never the raw leader
pose. -/
theorem teleop_step_record_action (now : ℚ) (r : Robot)
    (hc : r.is_connected = true)
    (hfne : r.follower_arms ≠ [])
    (hlk : ∀ f ∈ r.follower_arms, (List.lookup f.name (leaderPosList r)).isSome)
    (htac : ∃ tac, tactileObservation now r.tactile_sensors = .ok tac) :
    ∃ obs act evs, teleop_step now r true = .ok (some (obs, act), evs) ∧
      act = (writtenGoals evs).flatten ∧
      act = (r.follower_arms.map
        (teleopGoal (leaderPosList r) r.max_relative_target)).flatten ∧
      (∀ m, r.max_relative_target = some m →
        act = (r.follower_arms.map (fun f =>
          ensure_safe_goal_position ((List.lookup f.name (leaderPosList r)).getD [])
            f.present_position m)).flatten) := by
  obtain ⟨tac, htac⟩ := htac
  have hw := teleopWriteLoop_ok (leaderPosList r) r.max_relative_target
    r.follower_arms hlk
  have hne : r.follower_arms.isEmpty = false := by
    cases hfa : r.follower_arms with
    | nil => exact absurd hfa hfne
    | cons x xs => rfl
  refine ⟨_, _, _, teleop_step_true_eq now r hc _ _ tac hw hne htac, ?_, ?_, ?_⟩
  · rw [writtenGoals_eq]
    rw [List.filterMap_append, List.filterMap_append, List.filterMap_append,
      List.filterMap_append]
    have hre : ∀ (g : MotorsBus → Event) (xs : List MotorsBus),
        (∀ x : MotorsBus, writeEventOf (g x) = none) →
        (xs.map g).filterMap writeEventOf = [] := by
      intro g xs hg
      apply filterMap_write_of_reads
      intro e he
      obtain ⟨x, hx, rfl⟩ := List.mem_map.mp he
      exact hg x
    rw [hre (fun a => Event.readLeaderPos a.name) r.leader_arms (fun _ => rfl),
      hre (fun f => Event.readFollowerPos f.name) r.follower_arms (fun _ => rfl)]
    have hce : (r.cameras.map (fun c => Event.readCamera c.name)).filterMap
        writeEventOf = [] := by
      apply filterMap_write_of_reads
      intro e he
      obtain ⟨x, hx, rfl⟩ := List.mem_map.mp he
      rfl
    have hse : (r.tactile_sensors.map (fun s => Event.readTactile s.name)).filterMap
        writeEventOf = [] := by
      apply filterMap_write_of_reads
      intro e he
      obtain ⟨x, hx, rfl⟩ := List.mem_map.mp he
      rfl
    rw [hce, hse, filterMap_write_teleopEvents]
    simp only [List.nil_append, List.append_nil, List.map_map]
  · simp only [List.map_map]
    rfl
  · intro m hm
    rw [hm]
    simp only [List.map_map]
    rfl

/-- Witness for C4 at `teleopWitnessRobot` (leader pose `[30, 4]`,
follower present `[0, 0]`, scalar bound `10`, no tactile sensors). -/
theorem teleop_step_record_action_witness :
    ∃ obs act evs,
      teleop_step 0 teleopWitnessRobot true = .ok (some (obs, act), evs) ∧
      act = (writtenGoals evs).flatten ∧
      act = (teleopWitnessRobot.follower_arms.map
        (teleopGoal (leaderPosList teleopWitnessRobot)
          teleopWitnessRobot.max_relative_target)).flatten ∧
      (∀ m, teleopWitnessRobot.max_relative_target = some m →
        act = (teleopWitnessRobot.follower_arms.map (fun f =>
          ensure_safe_goal_position
            ((List.lookup f.name (leaderPosList teleopWitnessRobot)).getD [])
            f.present_position m)).flatten) :=
  teleop_step_record_action 0 teleopWitnessRobot rfl (by decide) (by decide)
    ⟨[], rfl⟩

/-- The post-clamp segment `send_action` computes for one follower from
its slice of the action vector. -/
def sentSegment (m : Option RelTarget) (f : MotorsBus) (seg : List ℚ) : List ℚ :=
  match m with
  | none => seg
  | some mt => ensure_safe_goal_position seg f.present_position mt

theorem sendLoop_sent (m : Option RelTarget) (fs : List MotorsBus) (a : List ℚ) :
    (sendLoop m fs a).1 =
      (List.zipWith (sentSegment m) fs
        (splitByCounts (fs.map (fun f => f.motor_names.length)) a)).flatten := by
  induction fs generalizing a with
  | nil => rfl
  | cons f rest ih =>
    simp only [sendLoop, List.map_cons, splitByCounts, List.zipWith_cons_cons,
      List.flatten_cons, ih]
    rfl

theorem sendLoop_written (m : Option RelTarget) (fs : List MotorsBus) (a : List ℚ) :
    ((sendLoop m fs a).2).filterMap writeEventOf =
      List.zipWith (fun f seg => (f.name, sentSegment m f seg)) fs
        (splitByCounts (fs.map (fun f => f.motor_names.length)) a) := by
  induction fs generalizing a with
  | nil => rfl
  | cons f rest ih =>
    simp only [sendLoop, List.map_cons, splitByCounts, List.zipWith_cons_cons]
    cases m <;>
      simp [writeEventOf, List.filterMap_cons, List.filterMap_append,
        ih, sentSegment]

theorem splitByCounts_flatten (counts : List Nat) (a : List ℚ) :
    (splitByCounts counts a).flatten = a.take counts.sum := by
  induction counts generalizing a with
  | nil => rfl
  | cons n rest ih =>
    simp only [splitByCounts, List.flatten_cons, ih, List.sum_cons]
    rw [List.take_add]

theorem zipWith_proj2 (fs : List MotorsBus) (xs : List (List ℚ))
    (h : fs.length = xs.length) :
    List.zipWith (fun _ seg => seg) fs xs = xs := by
  induction fs generalizing xs with
  | nil =>
    cases xs with
    | nil => rfl
    | cons y ys => simp at h
  | cons f rest ih =>
    cases xs with
    | nil => simp at h
    | cons y ys =>
      simp only [List.zipWith_cons_cons, List.length_cons] at *
      rw [ih ys (by omega)]

theorem splitByCounts_length (counts : List Nat) (a : List ℚ) :
    (splitByCounts counts a).length = counts.length := by
  induction counts generalizing a with
  | nil => rfl
  | cons n rest ih => simp [splitByCounts, ih]

/-- C3: on a connected controller with at least one follower arm and an
action vector whose length is the total follower motor count,
`send_action` splits the action by follower motor counts in registry
order, clamps each segment against that follower's present position when
a bound is configured, writes each post-clamp segment, and returns the
concatenation of the segments actually written; with no bound configured
it returns exactly the input action. -/
theorem send_action_spec (r : Robot) (a : List ℚ)
    (hc : r.is_connected = true)
    (hfne : r.follower_arms ≠ [])
    (hlen : a.length = (r.follower_arms.map (fun f => f.motor_names.length)).sum) :
    ∃ sent evs, send_action r a = .ok (sent, evs) ∧
      sent = (List.zipWith (sentSegment r.max_relative_target) r.follower_arms
        (splitByCounts (r.follower_arms.map (fun f => f.motor_names.length)) a)).flatten ∧
      (r.max_relative_target = none → sent = a) ∧
      sent = ((evs.filterMap writeEventOf).map Prod.snd).flatten := by
  have hne : r.follower_arms.isEmpty = false := by
    cases hfa : r.follower_arms with
    | nil => exact absurd hfa hfne
    | cons x xs => rfl
  have hsend : send_action r a = .ok (sendLoop r.max_relative_target r.follower_arms a) := by
    unfold send_action
    rw [if_pos hc, hne]
    rfl
  refine ⟨_, _, hsend, sendLoop_sent _ _ _, ?_, ?_⟩
  · intro hm
    rw [sendLoop_sent, hm]
    have hz := zipWith_proj2 r.follower_arms
      (splitByCounts (r.follower_arms.map (fun f => f.motor_names.length)) a)
      (by rw [splitByCounts_length, List.length_map])
    have : List.zipWith (sentSegment none) r.follower_arms
        (splitByCounts (r.follower_arms.map (fun f => f.motor_names.length)) a) =
        splitByCounts (r.follower_arms.map (fun f => f.motor_names.length)) a := hz
    rw [this, splitByCounts_flatten, ← hlen, List.take_length]
  · rw [sendLoop_sent, sendLoop_written]
    congr 1
    rw [List.map_zipWith]

/-- Witness for C3 at a concrete connected robot: two followers of 2 and
1 motors, scalar bound `5`, action `[9, -9, 1]`. -/
theorem send_action_spec_witness :
    ∃ sent evs, send_action
      { follower_arms :=
          [{ name := "left", motor_names := ["a", "b"], present_position := [0, 0] },
           { name := "right", motor_names := ["c"], present_position := [100] }],
        max_relative_target := some (.scalar 5),
        is_connected := true } [9, -9, 1] = .ok (sent, evs) ∧
      sent = (List.zipWith (sentSegment (some (.scalar 5)))
        [{ name := "left", motor_names := ["a", "b"], present_position := [0, 0] },
         { name := "right", motor_names := ["c"], present_position := [100] }]
        (splitByCounts [2, 1] [9, -9, 1])).flatten ∧
      ((some (RelTarget.scalar 5) : Option RelTarget) = none → sent = [9, -9, 1]) ∧
      sent = ((evs.filterMap writeEventOf).map Prod.snd).flatten := by
  have h := send_action_spec
    { follower_arms :=
        [{ name := "left", motor_names := ["a", "b"], present_position := [0, 0] },
         { name := "right", motor_names := ["c"], present_position := [100] }],
      max_relative_target := some (.scalar 5),
      is_connected := true } [9, -9, 1] rfl (by decide) (by decide)
  exact h

theorem capture_observation_eq (now : ℚ) (r : Robot)
    (hc : r.is_connected = true)
    (hne : r.follower_arms.isEmpty = false)
    (tac : List (String × TactileVal))
    (htac : tactileObservation now r.tactile_sensors = .ok tac) :
    capture_observation now r =
      .ok (("observation.state",
          ObsVal.state (r.follower_arms.map (fun f => f.present_position)).flatten) ::
          cameraEntries r.cameras ++ tac.map (fun kv => (kv.1, ObsVal.tact kv.2)),
        (r.follower_arms.map (fun f => Event.readFollowerPos f.name)) ++
        (r.cameras.map (fun c => Event.readCamera c.name)) ++
        (r.tactile_sensors.map (fun s => Event.readTactile s.name))) := by
  unfold capture_observation
  rw [if_pos hc, hne]
  simp only [htac]
  rfl

/-- C10: the feature schema's `action` and `observation.state`
descriptors are identical and both derived from the ordered motor names
of the leader arms; and under the device contract (one present-position
value per motor), any successful `capture_observation` yields an
`observation.state` vector whose length is the total follower motor
count — so when leader and follower motor counts differ, the declared
`observation.state` shape differs from the captured vector's length. -/
theorem motor_features_from_leaders (now : ℚ) (r : Robot)
    (hcontract : ∀ f ∈ r.follower_arms,
      f.present_position.length = f.motor_names.length) :
    (motor_features r =
      [("action", ⟨.float32, [(get_motor_names r.leader_arms).length],
          some (get_motor_names r.leader_arms)⟩),
       ("observation.state", ⟨.float32, [(get_motor_names r.leader_arms).length],
          some (get_motor_names r.leader_arms)⟩)]) ∧
    (∀ obs evs, capture_observation now r = .ok (obs, evs) →
      ∃ st, List.lookup "observation.state" obs = some (.state st) ∧
        st.length = (r.follower_arms.map (fun f => f.motor_names.length)).sum ∧
        ((get_motor_names r.leader_arms).length ≠
            (r.follower_arms.map (fun f => f.motor_names.length)).sum →
          [(get_motor_names r.leader_arms).length] ≠ [st.length])) := by
  refine ⟨rfl, ?_⟩
  intro obs evs hok
  by_cases hc : r.is_connected = true
  · have hcast : r.follower_arms.isEmpty = true ∨ r.follower_arms.isEmpty = false := by
      cases r.follower_arms.isEmpty <;> simp
    rcases hcast with hne | hne
    · unfold capture_observation at hok
      rw [if_pos hc, hne] at hok
      cases hok
    · cases htt : tactileObservation now r.tactile_sensors with
      | error e =>
        unfold capture_observation at hok
        rw [if_pos hc, hne] at hok
        simp only [htt] at hok
        cases hok
      | ok tac =>
        rw [capture_observation_eq now r hc hne tac htt] at hok
        cases hok
        have hstlen :
            ((r.follower_arms.map (fun f => f.present_position)).flatten).length =
              (r.follower_arms.map (fun f => f.motor_names.length)).sum := by
          rw [List.length_flatten, List.map_map]
          congr 1
          exact List.map_congr_left (fun f hf => hcontract f hf)
        refine ⟨_, rfl, hstlen, ?_⟩
        intro hdiff heq
        apply hdiff
        rw [hstlen] at heq
        simpa using heq
  · unfold capture_observation at hok
    rw [if_neg hc] at hok
    cases hok

/-- A connected robot whose single leader declares three motors while its
single follower declares two, exhibiting the C10 shape mismatch. -/
def mismatchRobot : Robot :=
  { leader_arms := [{ name := "main", motor_names := ["a", "b", "c"],
                      present_position := [1, 2, 3] }],
    follower_arms := [{ name := "main", motor_names := ["d", "e"],
                        present_position := [4, 5] }],
    is_connected := true }

/-- Witness for C10 at `mismatchRobot`. -/
theorem motor_features_from_leaders_witness :
    (motor_features mismatchRobot =
      [("action", ⟨.float32, [(get_motor_names mismatchRobot.leader_arms).length],
          some (get_motor_names mismatchRobot.leader_arms)⟩),
       ("observation.state",
          ⟨.float32, [(get_motor_names mismatchRobot.leader_arms).length],
          some (get_motor_names mismatchRobot.leader_arms)⟩)]) ∧
    (∀ obs evs, capture_observation 0 mismatchRobot = .ok (obs, evs) →
      ∃ st, List.lookup "observation.state" obs = some (.state st) ∧
        st.length = (mismatchRobot.follower_arms.map
          (fun f => f.motor_names.length)).sum ∧
        ((get_motor_names mismatchRobot.leader_arms).length ≠
            (mismatchRobot.follower_arms.map (fun f => f.motor_names.length)).sum →
          [(get_motor_names mismatchRobot.leader_arms).length] ≠ [st.length])) :=
  motor_features_from_leaders 0 mismatchRobot (by decide)

/-- A connected robot with one follower arm and one gelsight sensor whose
read returned a truthy payload carrying only a device name — no
`tactile_image` and no `image` field. -/
def gelsightPartialRobot : Robot :=
  { follower_arms := [{ name := "main", motor_names := ["a"],
                        present_position := [0] }],
    tactile_sensors := [{ name := "g", config := { ty := "gelsight" },
                          readResult := some ({ device_name := some "GS001" } : Payload) }],
    is_connected := true }

/-- Counterexample to C2: a capture call on a connected controller whose
gelsight sensor returns a payload missing the image fields does not
degrade to a zero placeholder — stage 2 never assigns the image key, so
stage 3's unconditional dictionary lookup raises KeyError out of the
capture call. -/
theorem capture_gelsight_missing_image_raises :
    capture_observation 0 gelsightPartialRobot = .error .keyError := by
  rfl

/-- Whether a tac3d 3-D array field avoids the unhandled `.astype` call
on a non-ndarray. -/
def arrOk : Option PyVal → Bool
  | some .other => false
  | _ => true

/-- Whether a tac3d resultant field avoids the unhandled IndexError on a
2-D array with fewer than three columns. -/
def resOk : Option PyVal → Bool
  | some (.nd _ dims) =>
    if 3 ≤ dims.prod ∧ dims.length = 2 ∧ 1 ≤ dims.getD 0 0 ∧ dims.getD 1 0 < 3
    then false else true
  | _ => true

/-- Whether a gelsight payload carries a usable image: a present
non-ndarray raises TypeError at `torch.from_numpy`, and an absent image
leaves the key unassigned, raising KeyError in stage 3. -/
def imgOk (ti im : Option PyVal) : Bool :=
  match ti with
  | some (.nd _ _) => true
  | some .other => false
  | none =>
    match im with
    | some (.nd _ _) => true
    | _ => false

/-- The read results under which one sensor's processing raises no Python
exception: a raised read (None payload) is always handled; a truthy
payload is handled for digit always, for tac3d when its array fields are
well-formed, for gelsight when it carries an ndarray image, and never for
an unknown sensor type (whose truthy payload skips the metadata
assignments that stage 3 looks up unconditionally). -/
def readSafe (cfg : TactileSensorConfig) : Option Payload → Bool
  | none => true
  | some p =>
    if cfg.ty = "tac3d" then
      arrOk p.positions3d && arrOk p.displacements3d && arrOk p.forces3d &&
        resOk p.resultant_force && resOk p.resultant_moment
    else if cfg.ty = "gelsight" then imgOk p.tactile_image p.image
    else if cfg.ty = "digit" then true
    else false

theorem tac3dArrayField_ok (v : Option PyVal) (h : arrOk v = true) :
    ∃ t, tac3dArrayField v = .ok t := by
  cases v with
  | none => exact ⟨_, rfl⟩
  | some pv =>
    cases pv with
    | nd dt dims => exact ⟨_, rfl⟩
    | other => simp [arrOk] at h

theorem tac3dResultantField_ok (v : Option PyVal) (h : resOk v = true) :
    ∃ t, tac3dResultantField v = .ok t := by
  cases v with
  | none => exact ⟨_, rfl⟩
  | some pv =>
    cases pv with
    | other => exact ⟨_, rfl⟩
    | nd dt dims =>
      have hC : ¬(3 ≤ dims.prod ∧ dims.length = 2 ∧ 1 ≤ dims.getD 0 0 ∧
          dims.getD 1 0 < 3) := by
        intro hc
        simp only [resOk] at h
        rw [if_pos hc] at h
        cases h
      simp only [tac3dResultantField]
      by_cases h1 : 3 ≤ dims.prod
      · rw [if_pos h1]
        by_cases h2 : dims.length = 1
        · rw [if_pos h2]
          exact ⟨_, rfl⟩
        · rw [if_neg h2]
          by_cases h3 : dims.length = 2 ∧ 1 ≤ dims.getD 0 0
          · rw [if_pos h3]
            by_cases h4 : 3 ≤ dims.getD 1 0
            · rw [if_pos h4]
              exact ⟨_, rfl⟩
            · exact absurd ⟨h1, h3.1, h3.2, by omega⟩ hC
          · rw [if_neg h3]
            exact ⟨_, rfl⟩
      · rw [if_neg h1]
        exact ⟨_, rfl⟩

theorem gelsightImage_ok (p : Payload) (h : imgOk p.tactile_image p.image = true) :
    ∃ v, gelsightImage p = .ok (some v) := by
  unfold gelsightImage
  unfold imgOk at h
  cases hti : p.tactile_image with
  | some pv =>
    rw [hti] at h
    cases pv with
    | nd dt dims => exact ⟨_, rfl⟩
    | other => cases h
  | none =>
    rw [hti] at h
    cases him : p.image with
    | some pv =>
      rw [him] at h
      cases pv with
      | nd dt dims => exact ⟨_, rfl⟩
      | other => cases h
    | none =>
      rw [him] at h
      cases h

/-- One observation entry agrees with one schema entry: same key, and the
stored value has the declared dtype and shape and is a zero-filled or
empty placeholder. -/
def placeholderMatch (kv : String × TactileVal) (kf : String × FeatureDesc) : Prop :=
  kv.1 = kf.1 ∧ kv.2.dtypeOf = kf.2.dtype ∧ kv.2.shapeOf = kf.2.shape ∧
    kv.2.isPlaceholder = true

theorem sensorObservation_ok (now : ℚ) (s : Sensor)
    (hsafe : readSafe s.config s.readResult = true) :
    ∃ entries, sensorObservation now s = .ok entries ∧
      entries.map Prod.fst = (tactile_features_one s.name s.config).map Prod.fst ∧
      (s.readResult = none →
        List.Forall₂ placeholderMatch entries (tactile_features_one s.name s.config)) := by
  cases hr : s.readResult with
  | none =>
    by_cases h1 : s.config.ty = "tac3d"
    · simp only [sensorObservation, hr, processMissing, assembleSensor,
        tactile_features_one, if_pos h1]
      refine ⟨_, rfl, rfl, fun _ => ?_⟩
      repeat' constructor
    · by_cases h2 : s.config.ty = "gelsight"
      · simp only [sensorObservation, hr, processMissing, assembleSensor,
          tactile_features_one, if_neg h1, if_pos h2]
        refine ⟨_, rfl, rfl, fun _ => ?_⟩
        repeat' constructor
      · by_cases h3 : s.config.ty = "digit"
        · simp only [sensorObservation, hr, processMissing, assembleSensor,
            tactile_features_one, if_neg h1, if_neg h2, if_pos h3]
          refine ⟨_, rfl, rfl, fun _ => ?_⟩
          repeat' constructor
        · simp only [sensorObservation, hr, processMissing, assembleSensor,
            tactile_features_one, if_neg h1, if_neg h2, if_neg h3]
          refine ⟨_, rfl, rfl, fun _ => ?_⟩
          repeat' constructor
  | some p =>
    have hs' : readSafe s.config (some p) = true := hr ▸ hsafe
    have hnone : s.readResult = none → False := by
      intro hn
      rw [hr] at hn
      cases hn
    by_cases h1 : s.config.ty = "tac3d"
    · simp only [readSafe, if_pos h1, Bool.and_eq_true] at hs'
      obtain ⟨⟨⟨⟨ha1, ha2⟩, ha3⟩, ha4⟩, ha5⟩ := hs'
      obtain ⟨t1, ht1⟩ := tac3dArrayField_ok _ ha1
      obtain ⟨t2, ht2⟩ := tac3dArrayField_ok _ ha2
      obtain ⟨t3, ht3⟩ := tac3dArrayField_ok _ ha3
      obtain ⟨t4, ht4⟩ := tac3dResultantField_ok _ ha4
      obtain ⟨t5, ht5⟩ := tac3dResultantField_ok _ ha5
      simp only [sensorObservation, hr, processTruthy, if_pos h1,
        ht1, ht2, ht3, ht4, ht5, assembleSensor, tactile_features_one]
      exact ⟨_, rfl, rfl, fun hn => by cases hn⟩
    · by_cases h2 : s.config.ty = "gelsight"
      · simp only [readSafe, if_neg h1, if_pos h2] at hs'
        obtain ⟨v, hv⟩ := gelsightImage_ok p hs'
        simp only [sensorObservation, hr, processTruthy, if_neg h1, if_pos h2,
          hv, assembleSensor, tactile_features_one]
        exact ⟨_, rfl, rfl, fun hn => by cases hn⟩
      · by_cases h3 : s.config.ty = "digit"
        · simp only [sensorObservation, hr, processTruthy, if_neg h1, if_neg h2,
            if_pos h3, assembleSensor, tactile_features_one]
          exact ⟨_, rfl, rfl, fun hn => by cases hn⟩
        · simp only [readSafe, if_neg h1, if_neg h2, if_neg h3] at hs'
          cases hs'

theorem tactileObservation_ok_of_safe (now : ℚ) (sensors : List Sensor)
    (hsafe : ∀ s ∈ sensors, readSafe s.config s.readResult = true) :
    ∃ obs, tactileObservation now sensors = .ok obs ∧
      ∀ s ∈ sensors, ∃ entries, sensorObservation now s = .ok entries ∧
        (∀ kv ∈ entries, kv ∈ obs) := by
  induction sensors with
  | nil =>
    refine ⟨[], rfl, ?_⟩
    intro s hs
    cases hs
  | cons s rest ih =>
    obtain ⟨e, he, _, _⟩ := sensorObservation_ok now s (hsafe s (List.mem_cons_self _ _))
    obtain ⟨obs, hobs, hrest⟩ := ih (fun t ht => hsafe t (List.mem_cons_of_mem _ ht))
    refine ⟨e ++ obs, ?_, ?_⟩
    · simp only [tactileObservation, he, hobs]
    · intro t ht
      rcases List.mem_cons.mp ht with rfl | htr
      · exact ⟨e, he, fun kv hkv => List.mem_append_left _ hkv⟩
      · obtain ⟨e', he', hmem⟩ := hrest t htr
        exact ⟨e', he', fun kv hkv => List.mem_append_right _ (hmem kv hkv)⟩

/-- C2 amended: on a connected controller with a follower arm, whenever
every tactile read result is handled by the source (always so when the
read raised; for a truthy payload only under the per-variant conditions
of `readSafe`), the capture call returns an observation that contains
every schema-declared tactile key of every sensor; and for a sensor whose
`read()` raised, the stored values are zero-filled or empty placeholders
of the schema-declared dtype and shape. Unlike the original claim, a
truthy gelsight payload missing its image fields (or any truthy payload
on an unknown sensor type) instead raises a KeyError out of the capture
call. -/
theorem capture_schema_complete (now : ℚ) (r : Robot)
    (hc : r.is_connected = true)
    (hne : r.follower_arms.isEmpty = false)
    (hsafe : ∀ s ∈ r.tactile_sensors, readSafe s.config s.readResult = true) :
    ∃ obs evs, capture_observation now r = .ok (obs, evs) ∧
      ∀ s ∈ r.tactile_sensors, ∃ entries,
        sensorObservation now s = .ok entries ∧
        entries.map Prod.fst = (tactile_features_one s.name s.config).map Prod.fst ∧
        (∀ kv ∈ entries, (kv.1, ObsVal.tact kv.2) ∈ obs) ∧
        (s.readResult = none →
          List.Forall₂ placeholderMatch entries
            (tactile_features_one s.name s.config)) := by
  obtain ⟨tac, htac, hmem⟩ := tactileObservation_ok_of_safe now r.tactile_sensors hsafe
  refine ⟨_, _, capture_observation_eq now r hc hne tac htac, ?_⟩
  intro s hs
  obtain ⟨entries, he, hkeys, hplace⟩ := sensorObservation_ok now s (hsafe s hs)
  obtain ⟨entries', he', hmem'⟩ := hmem s hs
  have hee : entries' = entries := by
    rw [he] at he'
    cases he'
    rfl
  rw [hee] at hmem'
  refine ⟨entries, he, hkeys, ?_, hplace⟩
  intro kv hkv
  have : kv ∈ tac := hmem' kv hkv
  apply List.mem_cons_of_mem
  apply List.mem_append_right
  exact List.mem_map_of_mem _ this

/-- A connected robot with one follower arm and one digit sensor whose
read raised, used as witness for the amended C2. -/
def digitFailRobot : Robot :=
  { follower_arms := [{ name := "main", motor_names := ["a"],
                        present_position := [0] }],
    tactile_sensors := [{ name := "fingertip", config := { ty := "digit" },
                          readResult := none }],
    is_connected := true }

/-- Witness for the amended C2 at `digitFailRobot`. -/
theorem capture_schema_complete_witness :
    ∃ obs evs, capture_observation 0 digitFailRobot = .ok (obs, evs) ∧
      ∀ s ∈ digitFailRobot.tactile_sensors, ∃ entries,
        sensorObservation 0 s = .ok entries ∧
        entries.map Prod.fst = (tactile_features_one s.name s.config).map Prod.fst ∧
        (∀ kv ∈ entries, (kv.1, ObsVal.tact kv.2) ∈ obs) ∧
        (s.readResult = none →
          List.Forall₂ placeholderMatch entries
            (tactile_features_one s.name s.config)) :=
  capture_schema_complete 0 digitFailRobot rfl rfl (by decide)

end Manipulator
